import Mathlib

/-!
# Call-session control of `DashboardPage.jsx`

A shallow embedding of the call handling of `src/pages/DashboardPage.jsx`:
the React state variables of `DashboardPage` become the fields of `State`,
every handler (`startCall`, `endCall`, the two callbacks handed to
`webrtcCallService`, the accept / reject handlers, the timers) becomes a
function on `State`, and the `useEffect` on `callStatus` becomes `render`.

Conventions of the embedding.

* An `await` splits a handler in two: the part before it (`startCallBegin`,
  `endCallBegin`) records the suspended continuation together with the values
  its closure captured, and the part after it (`startCallResume`,
  `endCallResume`) runs when the promise settles. `startCall` and `endCall`
  are the two parts run back to back.
* Calls into modules that are not part of the page (`call`, `hangupCall`,
  `navigate`, `notificationService`) are recorded, in program order, in the
  field `trace`.
* A JavaScript value that may be `undefined`, `null` or a string is a
  `JsValue`; `truthy` is JavaScript truthiness on it. The state variable
  `callStatus`, which is `null` or a string, is an `Option String`.
* A value that is thrown is a `Thrown`: reading `error.message` of `null` or
  `undefined` throws, inside the `catch` block that reads it, and the
  statements after the read are not reached.
-/

namespace Dashboard

/-! ## JavaScript values -/

/-- A value that is `undefined`, `null` or a string. -/
inductive JsValue where
  | undefined
  | null
  | str (s : String)
  deriving DecidableEq, Repr

/-- Truthiness of such a value: only a non-empty string is truthy. -/
def truthy : JsValue → Bool
  | JsValue.undefined => false
  | JsValue.null => false
  | JsValue.str s => decide (s ≠ "")

/-- The operator `a || b` on such values. -/
def jsOr (a b : JsValue) : JsValue :=
  if truthy a then a else b

/-- Interpolation of such a value in a template literal. -/
def tmpl : JsValue → String
  | JsValue.undefined => "undefined"
  | JsValue.null => "null"
  | JsValue.str s => s

/-- The value of a state variable that is `null` or a string. -/
def JsValue.ofNullable : Option String → JsValue
  | none => JsValue.null
  | some s => JsValue.str s

/-- A value caught by a `catch (error)`. For `null` and `undefined` the
expression `error.message` throws a TypeError; for any other value it is the
property `message`, which may itself be missing. -/
inductive Thrown where
  | nullish
  | value (message : JsValue)
  deriving DecidableEq, Repr

/-! ## Data -/

/-- The object handed to `startCall`: every call site builds
`{ extension, name }`. -/
structure Contact where
  extension : String
  name : String
  deriving DecidableEq, Repr

/-- The toast held in the state variable `notification`. -/
structure Toast where
  message : String
  type : String
  deriving DecidableEq, Repr

/-- The value of `channel && channel.startsWith('webrtc-call-')`. -/
inductive WebRTCFlag where
  | undefined
  | emptyString
  | bool (b : Bool)
  deriving DecidableEq, Repr

/-- The route state passed to `navigate("/calling", ...)`. -/
structure CallingRouteState where
  contact : Contact
  callStatus : String
  isOutgoing : Bool
  channel : Option String
  callAccepted : Bool
  isWebRTCCall : WebRTCFlag
  callId : Option String
  deriving DecidableEq, Repr

/-- The calls made on `notificationService`. -/
inductive NotifCall where
  | addNotification (type title message : String)
  | callConnected (extension : String)
  | callFailed (extension : String) (reason : JsValue)
  | callEnded (extension duration : String)
  deriving DecidableEq, Repr

/-- The calls that leave the page, in the order the page makes them. -/
inductive Effect where
  | notify (n : NotifCall)
  | dial (extension : String)
  | hangup (channel : String)
  | navigate (path : String) (state : Option CallingRouteState)
  | onAccept
  | onReject
  | setIncomingCallNull
  deriving DecidableEq, Repr

/-- The payload of the incoming-call callback. Every field may be missing
or `null`.
`onAccept` and `onReject` are functions of the service: `none` stands for a
call that throws (the property is not a function), `some l` for a call that
returns after pushing the statuses `l` through the status callback. -/
structure IncomingCallData where
  from_ : JsValue
  caller : JsValue
  fromUsername : JsValue
  caller_username : JsValue
  channel : JsValue
  callId : JsValue
  priority : JsValue
  transport : JsValue
  onAccept : Option (List String)
  onReject : Option (List String)
  deriving DecidableEq, Repr

/-- The callbacks given to `setTimeout`: the reset of `startCall`'s `catch`
branch and the toast removal of the `callStatus` effect. -/
inductive Timer where
  | resetCall
  | clearNotification
  deriving DecidableEq, Repr

/-- The delay, in milliseconds, each timer is scheduled with. -/
def Timer.delay : Timer → Nat
  | .resetCall => 2000
  | .clearNotification => 3000

/-- What `await call(extension)` settles to: an object whose `channel` may be
missing, or a thrown value. (A promise that resolves to `null` or
`undefined` makes the destructuring `const { channel } = ...` throw a
TypeError inside the `try`: that is the case `rejected` with that error.) -/
inductive DialOutcome where
  | resolved (channel : Option String)
  | rejected (error : Thrown)
  deriving DecidableEq, Repr

/-- What `await hangupCall(channel)` settles to: it returns, or it throws a
value. -/
inductive HangupOutcome where
  | ack
  | error (error : Thrown)
  deriving DecidableEq, Repr

/-- The state variables of `DashboardPage` that take part in call handling,
the prop `setIncomingCall` (present or not), the suspended continuations with
the `contact` their closure holds, the running timers and the trace. -/
structure State where
  callStatus : Option String
  activeCallContact : Option Contact
  currentPage : String
  notification : Option Toast
  incomingCall : Option IncomingCallData
  hasSetIncomingCall : Bool
  pendingDials : List Contact
  pendingHangups : List Contact
  timers : List Timer
  trace : List Effect
  deriving DecidableEq, Repr

/-- The state after the first render: the arguments of the `useState` calls. -/
def initialState (hasSetIncomingCall : Bool) : State :=
  { callStatus := none
    activeCallContact := none
    currentPage := "keypad"
    notification := none
    incomingCall := none
    hasSetIncomingCall := hasSetIncomingCall
    pendingDials := []
    pendingHangups := []
    timers := []
    trace := [] }

/-! ## The effect on `callStatus` -/

/-- The `type` the effect gives the toast for a truthy `callStatus`. -/
def statusType (status : String) : String :=
  if status = "Connected" then "success"
  else if status = "Call failed" then "error"
  else "info"

/-- The argument of `setNotification` in the effect, if it is reached. -/
def statusNotification (callStatus : Option String) : Option Toast :=
  match callStatus with
  | none => none
  | some status =>
    if truthy (JsValue.str status) then some { message := status, type := statusType status }
    else none

/-- The body of the effect: for a truthy `callStatus` it sets the toast and
starts the 3000 ms timer that removes it. -/
def callStatusEffect (s : State) : State :=
  match statusNotification s.callStatus with
  | some t => { s with notification := some t, timers := s.timers ++ [Timer.clearNotification] }
  | none => s

/-- The cleanup the effect returned: `clearTimeout` of its timer. -/
def effectCleanup (s : State) : State :=
  { s with timers := s.timers.filter (fun t => decide (t ≠ Timer.clearNotification)) }

/-- A render after a handler ran: the effect depends on `[callStatus]`, so it
is cleaned up and run again exactly when `callStatus` differs from the value
of the previous render. -/
def render (previous : Option String) (s : State) : State :=
  if s.callStatus = previous then s else callStatusEffect (effectCleanup s)

/-! ## `startCall` -/

/-- The value of `channel && channel.startsWith('webrtc-call-')`. -/
def isWebRTCCall : Option String → WebRTCFlag
  | none => WebRTCFlag.undefined
  | some ch =>
    if ch = "" then WebRTCFlag.emptyString
    else WebRTCFlag.bool ("webrtc-call-".toList.isPrefixOf ch.toList)

/-- The route state `startCall` publishes with `navigate("/calling", ...)`. -/
def callingRouteState (contact : Contact) (channel : Option String) : CallingRouteState :=
  { contact := contact
    callStatus := "Connecting..."
    isOutgoing := true
    channel := channel
    callAccepted := false
    isWebRTCCall := isWebRTCCall channel
    callId := channel }

/-- The notification `startCall` adds before it dials. -/
def initiatingNotification (contact : Contact) : NotifCall :=
  NotifCall.addNotification "info" "Initiating Call"
    ("Calling " ++ tmpl (jsOr (JsValue.str contact.name) (JsValue.str contact.extension))
      ++ "...")

/-- The part of `startCall` up to `await call(contact.extension)`. -/
def startCallBegin (contact : Contact) (s : State) : State :=
  { s with
    activeCallContact := some contact
    callStatus := some ("Initiating call to " ++ contact.name ++ "...")
    trace := s.trace ++ [Effect.notify (initiatingNotification contact), Effect.dial contact.extension]
    pendingDials := s.pendingDials ++ [contact] }

/-- The part of `startCall` after the `await`, for the `contact` of its
closure: the rest of the `try` block when the dial resolved, the `catch`
block when it threw. In the `catch` block `setCallStatus("Call failed")`
comes first; the argument `error.message` of `callFailed` is read next, and
when that read throws neither `callFailed` nor `setTimeout` is reached. -/
def startCallResume (contact : Contact) (outcome : DialOutcome) (s : State) : State :=
  match outcome with
  | DialOutcome.resolved channel =>
    { s with
      callStatus := some "Connected"
      currentPage := "calling"
      trace := s.trace ++ [Effect.notify (NotifCall.callConnected contact.extension),
        Effect.navigate "/calling" (some (callingRouteState contact channel))] }
  | DialOutcome.rejected Thrown.nullish =>
    { s with callStatus := some "Call failed" }
  | DialOutcome.rejected (Thrown.value message) =>
    { s with
      callStatus := some "Call failed"
      trace := s.trace ++ [Effect.notify (NotifCall.callFailed contact.extension message)]
      timers := s.timers ++ [Timer.resetCall] }

/-! ## `endCall` -/

/-- The statements of `endCall` after the `if`. -/
def endCallFinish (s : State) : State :=
  { s with
    callStatus := none
    activeCallContact := none
    currentPage := "keypad"
    trace := s.trace ++ [Effect.navigate "/dashboard" none] }

/-- The contact `endCall` hangs up on: the guard `activeCallContact && callStatus`. -/
def endCallGuard (s : State) : Option Contact :=
  match s.activeCallContact with
  | some c => if truthy (JsValue.ofNullable s.callStatus) then some c else none
  | none => none

/-- The part of `endCall` up to `await hangupCall(...)`; without an active
call there is no `await` and `endCall` runs to its end. -/
def endCallBegin (s : State) : State :=
  match endCallGuard s with
  | some c =>
    { s with
      trace := s.trace ++ [Effect.hangup ("PJSIP/" ++ c.extension)]
      pendingHangups := s.pendingHangups ++ [c] }
  | none => endCallFinish s

/-- The part of `endCall` after the `await`, for the `activeCallContact` of
its closure. In the `catch` block `setNotification` comes first; the
template literal that reads `error.message` is an argument of
`addNotification`, and when that read throws neither `addNotification` nor
the statements after the `if` are reached. -/
def endCallResume (contact : Contact) (outcome : HangupOutcome) (s : State) : State :=
  match outcome with
  | HangupOutcome.ack =>
    endCallFinish
      { s with trace := s.trace ++ [Effect.notify (NotifCall.callEnded contact.extension "Unknown duration")] }
  | HangupOutcome.error Thrown.nullish =>
    { s with notification := some { message := "Failed to end call", type := "error" } }
  | HangupOutcome.error (Thrown.value message) =>
    endCallFinish
      { s with
        notification := some { message := "Failed to end call", type := "error" }
        trace := s.trace ++ [Effect.notify (NotifCall.addNotification "error" "End Call Failed"
          ("Failed to end call with " ++ contact.extension ++ ": " ++ tmpl message))] }

/-! ## The callbacks of `webrtcCallService` and the incoming-call handlers -/

/-- The label of the caller in the toast and in the modal. -/
def callerLabel (d : IncomingCallData) : String :=
  tmpl (jsOr d.fromUsername
    (jsOr d.caller_username (JsValue.str ("Extension " ++ tmpl d.from_))))

/-- The incoming-call callback. -/
def onIncomingCall (d : IncomingCallData) (s : State) : State :=
  { s with
    incomingCall := some d
    notification := some { message := "📞 " ++ callerLabel d ++ " is calling", type := "info" } }

/-- The status callback. -/
def onStatus (status : String) (s : State) : State :=
  { s with callStatus := some status }

/-- The handler `onCallAccepted` given to `IncomingCallPage`. -/
def onCallAccepted (s : State) : State :=
  { s with
    incomingCall := none
    trace := if s.hasSetIncomingCall then s.trace ++ [Effect.setIncomingCallNull] else s.trace }

/-- The handler `onCallRejected` given to `IncomingCallPage`. -/
def onCallRejected (s : State) : State :=
  { s with
    incomingCall := none
    trace := if s.hasSetIncomingCall then s.trace ++ [Effect.setIncomingCallNull] else s.trace }

/-- The `onClick` of the modal's Accept button. The modal is rendered only
while `incomingCall` is set; when `incomingCall.onAccept()` throws the
handler stops there. -/
def acceptClick (s : State) : State :=
  match s.incomingCall with
  | none => s
  | some d =>
    match d.onAccept with
    | none => s
    | some statuses =>
      { statuses.foldl (fun st status => onStatus status st)
          { s with trace := s.trace ++ [Effect.onAccept] } with
        incomingCall := none }

/-- The `onClick` of the modal's Reject button. -/
def rejectClick (s : State) : State :=
  match s.incomingCall with
  | none => s
  | some d =>
    match d.onReject with
    | none => s
    | some statuses =>
      { statuses.foldl (fun st status => onStatus status st)
          { s with trace := s.trace ++ [Effect.onReject] } with
        incomingCall := none }

/-! ## Timers -/

/-- The callback of a timer. -/
def Timer.run : Timer → State → State
  | Timer.resetCall, s =>
    { s with callStatus := none, activeCallContact := none, currentPage := "keypad" }
  | Timer.clearNotification, s => { s with notification := none }

/-- The timer at position `k` fires: it leaves the list and its callback runs. -/
def fireTimer (k : Nat) (s : State) : State :=
  match s.timers.get? k with
  | none => s
  | some t => t.run { s with timers := s.timers.eraseIdx k }

/-! ## The page as a machine -/

/-- Whatever can happen to the page between two renders. -/
inductive Event where
  | startCall (contact : Contact)
  | dialSettled (k : Nat) (outcome : DialOutcome)
  | endCall
  | hangupSettled (k : Nat) (outcome : HangupOutcome)
  | incomingCall (d : IncomingCallData)
  | status (status : String)
  | acceptClick
  | rejectClick
  | onCallAccepted
  | onCallRejected
  | timer (k : Nat)
  deriving DecidableEq, Repr

/-- The handler an event runs, before the render that follows it. A settled
promise resumes the continuation at position `k` of the pending ones. -/
def handle (e : Event) (s : State) : State :=
  match e with
  | Event.startCall contact => startCallBegin contact s
  | Event.dialSettled k outcome =>
    match s.pendingDials.get? k with
    | none => s
    | some c => startCallResume c outcome { s with pendingDials := s.pendingDials.eraseIdx k }
  | Event.endCall => endCallBegin s
  | Event.hangupSettled k outcome =>
    match s.pendingHangups.get? k with
    | none => s
    | some c => endCallResume c outcome { s with pendingHangups := s.pendingHangups.eraseIdx k }
  | Event.incomingCall d => onIncomingCall d s
  | Event.status status => onStatus status s
  | Event.acceptClick => acceptClick s
  | Event.rejectClick => rejectClick s
  | Event.onCallAccepted => onCallAccepted s
  | Event.onCallRejected => onCallRejected s
  | Event.timer k => fireTimer k s

/-- One event: its handler, then the render. -/
def step (s : State) (e : Event) : State :=
  render s.callStatus (handle e s)

/-- A finite sequence of events. -/
def run (s : State) (es : List Event) : State :=
  es.foldl step s

/-- The function `startCall` run from its first statement to its last, the
dial settling with `outcome` before anything else happens: the render at the
`await` is the one that shows the "Initiating call" status. -/
def startCall (contact : Contact) (outcome : DialOutcome) (s : State) : State :=
  run s [Event.startCall contact, Event.dialSettled s.pendingDials.length outcome]

/-- The function `endCall` run from its first statement to its last, the
hangup (if one is sent) settling with `outcome` before anything else happens. -/
def endCall (outcome : HangupOutcome) (s : State) : State :=
  match endCallGuard s with
  | some _ => run s [Event.endCall, Event.hangupSettled s.pendingHangups.length outcome]
  | none => run s [Event.endCall]

/-- The notifications among the trace, in order. -/
def notificationLog (s : State) : List NotifCall :=
  s.trace.filterMap (fun e => match e with
    | Effect.notify n => some n
    | _ => none)

/-- The extensions dialled, in order. -/
def dialLog (s : State) : List String :=
  s.trace.filterMap (fun e => match e with
    | Effect.dial x => some x
    | _ => none)

/-- The events that are a call of `startCall`. -/
def Event.isStartCall : Event → Bool
  | Event.startCall _ => true
  | _ => false

/-- The extension an event makes the page dial, if any. -/
def Event.dialled : Event → List String
  | Event.startCall c => [c.extension]
  | _ => []

/-! ## The offer handed to `IncomingCallPage` -/

/-- The object built for the prop `callData` of `IncomingCallPage`. -/
structure CallData where
  from_ : JsValue
  fromUsername : JsValue
  caller_username : JsValue
  channel : JsValue
  priority : JsValue
  transport : JsValue
  call_id : JsValue
  deriving DecidableEq, Repr

/-- The prop `callData`, built from the pending `incomingCall`. -/
def callData (incomingCall : IncomingCallData) : CallData :=
  { from_ := jsOr incomingCall.caller incomingCall.from_
    fromUsername := incomingCall.fromUsername
    caller_username := incomingCall.caller_username
    channel := jsOr incomingCall.channel incomingCall.callId
    priority := jsOr incomingCall.priority (JsValue.str "normal")
    transport := jsOr incomingCall.transport (JsValue.str "transport-ws")
    call_id := incomingCall.callId }

/-- The values the state variables of the page hold: `callStatus`,
`activeCallContact`, `currentPage`, `notification` and `incomingCall`. -/
def stateVariables (s : State) :
    Option String × Option Contact × String × Option Toast × Option IncomingCallData :=
  (s.callStatus, s.activeCallContact, s.currentPage, s.notification, s.incomingCall)

/-- The hangup commands sent, in order. -/
def hangupLog (s : State) : List String :=
  s.trace.filterMap (fun e => match e with
    | Effect.hangup ch => some ch
    | _ => none)

/-! ## Sample data -/

/-- The contact the keypad builds for extension 1001. -/
def john : Contact := { extension := "1001", name := "Extension 1001" }

/-- The contact the keypad builds for extension 1002. -/
def jane : Contact := { extension := "1002", name := "Extension 1002" }

/-- The page after `startCall(john)` whose dial returned "webrtc-call-42". -/
def connectedJohn : State :=
  startCall john (DialOutcome.resolved (some "webrtc-call-42")) (initialState false)

/-- The page after `startCall(john)` whose dial failed with an error of
message "busy". -/
def failedJohn : State :=
  startCall john (DialOutcome.rejected (Thrown.value (JsValue.str "busy"))) (initialState false)

/-- An incoming call from extension 1002 whose `onAccept` reports
"Connected" through the status callback. -/
def offer1002 : IncomingCallData :=
  { from_ := JsValue.str "1002"
    caller := JsValue.undefined
    fromUsername := JsValue.undefined
    caller_username := JsValue.undefined
    channel := JsValue.str "webrtc-call-77"
    callId := JsValue.str "webrtc-call-77"
    priority := JsValue.undefined
    transport := JsValue.undefined
    onAccept := some ["Connected"]
    onReject := some [] }

/-- An incoming call that names its caller in `caller` only, with no
display name. -/
def callerOnlyOffer : IncomingCallData :=
  { from_ := JsValue.undefined
    caller := JsValue.str "1002"
    fromUsername := JsValue.undefined
    caller_username := JsValue.undefined
    channel := JsValue.str "webrtc-call-77"
    callId := JsValue.undefined
    priority := JsValue.undefined
    transport := JsValue.undefined
    onAccept := some []
    onReject := some [] }

end Dashboard

/-! # Properties -/

namespace Dashboard

/-! ## Renders leave the session alone -/

theorem effectCleanup_fields (s : State) :
    (effectCleanup s).callStatus = s.callStatus ∧
    (effectCleanup s).activeCallContact = s.activeCallContact ∧
    (effectCleanup s).currentPage = s.currentPage ∧
    (effectCleanup s).incomingCall = s.incomingCall ∧
    (effectCleanup s).trace = s.trace ∧
    (effectCleanup s).pendingDials = s.pendingDials ∧
    (effectCleanup s).pendingHangups = s.pendingHangups ∧
    (effectCleanup s).notification = s.notification :=
  ⟨rfl, rfl, rfl, rfl, rfl, rfl, rfl, rfl⟩

theorem callStatusEffect_fields (s : State) :
    (callStatusEffect s).callStatus = s.callStatus ∧
    (callStatusEffect s).activeCallContact = s.activeCallContact ∧
    (callStatusEffect s).currentPage = s.currentPage ∧
    (callStatusEffect s).incomingCall = s.incomingCall ∧
    (callStatusEffect s).trace = s.trace ∧
    (callStatusEffect s).pendingDials = s.pendingDials ∧
    (callStatusEffect s).pendingHangups = s.pendingHangups := by
  unfold callStatusEffect
  cases statusNotification s.callStatus <;> simp

theorem render_fields (p : Option String) (s : State) :
    (render p s).callStatus = s.callStatus ∧
    (render p s).activeCallContact = s.activeCallContact ∧
    (render p s).currentPage = s.currentPage ∧
    (render p s).incomingCall = s.incomingCall ∧
    (render p s).trace = s.trace ∧
    (render p s).pendingDials = s.pendingDials ∧
    (render p s).pendingHangups = s.pendingHangups := by
  unfold render
  split
  · simp
  · have h := callStatusEffect_fields (effectCleanup s)
    have h2 := effectCleanup_fields s
    simp only [h2.1, h2.2.1, h2.2.2.1, h2.2.2.2.1, h2.2.2.2.2.1, h2.2.2.2.2.2.1,
      h2.2.2.2.2.2.2.1] at h
    exact h

@[simp] theorem render_callStatus (p : Option String) (s : State) :
    (render p s).callStatus = s.callStatus := (render_fields p s).1

@[simp] theorem render_activeCallContact (p : Option String) (s : State) :
    (render p s).activeCallContact = s.activeCallContact := (render_fields p s).2.1

@[simp] theorem render_currentPage (p : Option String) (s : State) :
    (render p s).currentPage = s.currentPage := (render_fields p s).2.2.1

@[simp] theorem render_incomingCall (p : Option String) (s : State) :
    (render p s).incomingCall = s.incomingCall := (render_fields p s).2.2.2.1

@[simp] theorem render_trace (p : Option String) (s : State) :
    (render p s).trace = s.trace := (render_fields p s).2.2.2.2.1

@[simp] theorem render_pendingDials (p : Option String) (s : State) :
    (render p s).pendingDials = s.pendingDials := (render_fields p s).2.2.2.2.2.1

@[simp] theorem render_pendingHangups (p : Option String) (s : State) :
    (render p s).pendingHangups = s.pendingHangups := (render_fields p s).2.2.2.2.2.2

@[simp] theorem getElem?_length_append_singleton {α : Type} (l : List α) (a : α) :
    (l ++ [a]).get? l.length = some a := by
  simp [List.get?_eq_getElem?]

@[simp] theorem eraseIdx_length_append_singleton {α : Type} (l : List α) (a : α) :
    (l ++ [a]).eraseIdx l.length = l := by
  induction l with
  | nil => rfl
  | cons b l ih => simp [List.eraseIdx, ih]

/-- The status `startCall` sets before it dials is never empty. -/
theorem initiating_ne_empty (name : String) :
    "Initiating call to " ++ name ++ "..." ≠ "" := by
  intro h
  have h2 := congrArg String.length h
  simp only [String.length_append] at h2
  have h3 : "...".length = 3 := by decide
  have h4 : "".length = 0 := by decide
  omega

/-- What `endCallFinish` leaves behind. -/
theorem endCallFinish_idle (s : State) :
    (endCallFinish s).callStatus = none ∧ (endCallFinish s).activeCallContact = none ∧
    (endCallFinish s).currentPage = "keypad" :=
  ⟨rfl, rfl, rfl⟩

/-- What `endCallResume` leaves behind, whatever happened during the `await`,
when the hangup request returned or threw a value whose `message` can be
read. -/
theorem endCallResume_idle (c : Contact) (o : HangupOutcome) (s : State)
    (ho : o ≠ HangupOutcome.error Thrown.nullish) :
    (endCallResume c o s).callStatus = none ∧ (endCallResume c o s).activeCallContact = none ∧
    (endCallResume c o s).currentPage = "keypad" := by
  cases o with
  | ack => exact ⟨rfl, rfl, rfl⟩
  | error e =>
    cases e with
    | nullish => exact absurd rfl ho
    | value m => exact ⟨rfl, rfl, rfl⟩

/-- When the hangup request returns, or throws a value whose `message` can be
read, `endCall` leaves the session idle, from every state; and so does the
continuation of `endCall` alone, in whatever state the page is when the
hangup request settles. -/
theorem endCall_idle_of_readable (outcome : HangupOutcome) (s : State)
    (ho : outcome ≠ HangupOutcome.error Thrown.nullish) :
    ((endCall outcome s).callStatus = none ∧
      (endCall outcome s).activeCallContact = none ∧
      (endCall outcome s).currentPage = "keypad") ∧
    ∀ (s1 : State) (k : Nat) (c : Contact), s1.pendingHangups.get? k = some c →
      (step s1 (Event.hangupSettled k outcome)).callStatus = none ∧
      (step s1 (Event.hangupSettled k outcome)).activeCallContact = none ∧
      (step s1 (Event.hangupSettled k outcome)).currentPage = "keypad" := by
  constructor
  · unfold endCall
    cases hg : endCallGuard s with
    | none =>
      simp only [run, List.foldl, step, handle, endCallBegin, hg, render_callStatus,
        render_activeCallContact, render_currentPage]
      exact endCallFinish_idle s
    | some c =>
      simp only [run, List.foldl, step, handle, endCallBegin, hg, render_callStatus,
        render_activeCallContact, render_currentPage, render_pendingHangups,
        getElem?_length_append_singleton]
      exact endCallResume_idle c outcome _ ho
  · intro s1 k c hk
    simp only [step, handle, hk, render_callStatus, render_activeCallContact,
      render_currentPage]
    exact endCallResume_idle c outcome _ ho

/-! ## C1 -/

/-- C1, the code at the failing input. The page is connected to 1001 and
`hangupCall` rejects with `undefined` (or `null`): reading `error.message`
throws inside the `catch` block of `endCall`, the three resets after the
`if` are not reached, and after `endCall` the session is still "Connected"
with its contact, on the "calling" page; only the toast "Failed to end call"
was set. -/
theorem endCall_stuck_on_nullish_error :
    connectedJohn.callStatus = some "Connected" ∧
    connectedJohn.activeCallContact = some john ∧
    (endCall (HangupOutcome.error Thrown.nullish) connectedJohn).callStatus
      = some "Connected" ∧
    (endCall (HangupOutcome.error Thrown.nullish) connectedJohn).activeCallContact
      = some john ∧
    (endCall (HangupOutcome.error Thrown.nullish) connectedJohn).currentPage = "calling" ∧
    (endCall (HangupOutcome.error Thrown.nullish) connectedJohn).notification
      = some { message := "Failed to end call", type := "error" } := by
  decide

/-! ## C2 -/

/-- C2 fails. From the page connected to 1001, `startCall(jane)` replaces the
contact of the session and dials 1002, both at its `await` and after the dial
has returned: the session is not left unchanged. -/
theorem startCall_while_connected_counterexample :
    connectedJohn.callStatus = some "Connected" ∧
    connectedJohn.activeCallContact = some john ∧
    (step connectedJohn (Event.startCall jane)).activeCallContact = some jane ∧
    (step connectedJohn (Event.startCall jane)).callStatus
      = some "Initiating call to Extension 1002..." ∧
    dialLog connectedJohn = ["1001"] ∧
    dialLog (step connectedJohn (Event.startCall jane)) = ["1001", "1002"] ∧
    (startCall jane (DialOutcome.resolved (some "webrtc-call-43")) connectedJohn).activeCallContact
      = some jane ∧
    ¬ ((step connectedJohn (Event.startCall jane)).activeCallContact
          = connectedJohn.activeCallContact ∧
       (step connectedJohn (Event.startCall jane)).callStatus = connectedJohn.callStatus ∧
       dialLog (step connectedJohn (Event.startCall jane)) = dialLog connectedJohn) := by
  decide

/-- C2, amended. In every state in which a session is Connected, and for every
contact `c`, `startCall(c)` is not rejected: at its `await` the contact of the
session is `c`, `callStatus` is "Initiating call to <c.name>...", and the
"Initiating Call" notification and one dial command for `c.extension` have
been issued. -/
theorem startCall_while_connected (s : State) (c : Contact)
    (_hs : s.callStatus = some "Connected") (_hc : s.activeCallContact.isSome = true) :
    (step s (Event.startCall c)).activeCallContact = some c ∧
    (step s (Event.startCall c)).callStatus = some ("Initiating call to " ++ c.name ++ "...") ∧
    (step s (Event.startCall c)).trace
      = s.trace ++ [Effect.notify (initiatingNotification c), Effect.dial c.extension] ∧
    dialLog (step s (Event.startCall c)) = dialLog s ++ [c.extension] ∧
    (step s (Event.startCall c)).pendingDials = s.pendingDials ++ [c] := by
  simp [step, handle, startCallBegin, dialLog, List.filterMap_append]

/-- A witness of the amended C2: a second call placed while connected to 1001. -/
theorem startCall_while_connected_witness :
    connectedJohn.callStatus = some "Connected" ∧
    connectedJohn.activeCallContact.isSome = true ∧
    (step connectedJohn (Event.startCall jane)).activeCallContact = some jane :=
  ⟨by decide, by decide,
    (startCall_while_connected connectedJohn jane (by decide) (by decide)).1⟩

/-! ## C3 -/

/-- The cleanup of the effect removes none of the reset timers. -/
theorem count_resetCall_filter (l : List Timer) :
    (l.filter (fun t => decide (t ≠ Timer.clearNotification))).count Timer.resetCall
      = l.count Timer.resetCall := by
  induction l with
  | nil => rfl
  | cons t l ih => cases t <;> simp [List.filter, List.count_cons, ih]

/-- A render starts and stops no reset timer. -/
theorem render_count_resetCall (p : Option String) (s : State) :
    (render p s).timers.count Timer.resetCall = s.timers.count Timer.resetCall := by
  unfold render
  split
  · rfl
  · unfold callStatusEffect
    cases statusNotification (effectCleanup s).callStatus <;>
      simp [effectCleanup, count_resetCall_filter, List.count_append, List.count_cons]

/-- The state in which `startCall` resumes when nothing happened during the
`await`. -/
theorem startCall_eq (c : Contact) (o : DialOutcome) (s : State) :
    startCall c o s
      = render (some ("Initiating call to " ++ c.name ++ "..."))
          (startCallResume c o
            { render s.callStatus (startCallBegin c s) with pendingDials := s.pendingDials }) := by
  simp [startCall, run, step, handle, startCallBegin]

/-- Firing a reset timer leaves the session idle. -/
theorem fire_resetCall_idle (s : State) (k : Nat) (h : s.timers.get? k = some Timer.resetCall) :
    (step s (Event.timer k)).callStatus = none ∧
    (step s (Event.timer k)).activeCallContact = none ∧
    (step s (Event.timer k)).currentPage = "keypad" := by
  simp only [step, handle, fireTimer, h, render_callStatus, render_activeCallContact,
    render_currentPage]
  exact ⟨rfl, rfl, rfl⟩

/-- A render reads and writes the state variables only. -/
theorem render_stateVariables (p : Option String) (s1 s2 : State)
    (h : stateVariables s1 = stateVariables s2) :
    stateVariables (render p s1) = stateVariables (render p s2) := by
  simp only [stateVariables, Prod.mk.injEq] at h
  obtain ⟨h1, h2, h3, h4, h5⟩ := h
  unfold render
  rw [h1]
  split
  · simp [stateVariables, h1, h2, h3, h4, h5]
  · unfold callStatusEffect
    have hc : (effectCleanup s1).callStatus = (effectCleanup s2).callStatus := h1
    rw [hc]
    cases statusNotification (effectCleanup s2).callStatus <;>
      simp [stateVariables, effectCleanup, h1, h2, h3, h4, h5]

/-- C3 fails. The dial to 1001 fails once with the reason "busy" and once
with the reason "no route": in both cases `callStatus` is the literal
"Call failed", the toast is "Call failed", and all the state variables of
the page are the same, so the state does not carry the reason; only the
`callFailed` notifications differ. -/
theorem failed_state_counterexample :
    (startCall john (DialOutcome.rejected (Thrown.value (JsValue.str "busy")))
      (initialState false)).callStatus = some "Call failed" ∧
    (startCall john (DialOutcome.rejected (Thrown.value (JsValue.str "busy")))
      (initialState false)).notification = some { message := "Call failed", type := "error" } ∧
    stateVariables (startCall john (DialOutcome.rejected (Thrown.value (JsValue.str "busy")))
      (initialState false))
      = stateVariables (startCall john
          (DialOutcome.rejected (Thrown.value (JsValue.str "no route"))) (initialState false)) ∧
    notificationLog (startCall john (DialOutcome.rejected (Thrown.value (JsValue.str "busy")))
      (initialState false))
      ≠ notificationLog (startCall john
          (DialOutcome.rejected (Thrown.value (JsValue.str "no route"))) (initialState false)) := by
  decide

/-- C3, amended. For every contact `c` and every state, when the dial issued
by `startCall(c)` fails with an error whose `message` `m` can be read:
`callStatus` becomes "Call failed"; the reason is carried by the
notification and not by the state: the notifications added are the
"Initiating Call" one and then exactly one `callFailed(c.extension, m)`,
while the state variables of the page are the same whatever `m` is; exactly
one timer that resets the call is started, with a delay of 2000 ms; and when
that timer fires the session is idle (`callStatus` null, `activeCallContact`
null, `currentPage` "keypad"). -/
theorem startCall_dial_fails (c : Contact) (m : JsValue) (s : State) :
    (startCall c (DialOutcome.rejected (Thrown.value m)) s).callStatus = some "Call failed" ∧
    notificationLog (startCall c (DialOutcome.rejected (Thrown.value m)) s)
      = notificationLog s ++ [initiatingNotification c, NotifCall.callFailed c.extension m] ∧
    (∀ m2 : JsValue,
      stateVariables (startCall c (DialOutcome.rejected (Thrown.value m)) s)
        = stateVariables (startCall c (DialOutcome.rejected (Thrown.value m2)) s)) ∧
    (startCall c (DialOutcome.rejected (Thrown.value m)) s).timers.count Timer.resetCall
      = s.timers.count Timer.resetCall + 1 ∧
    Timer.resetCall.delay = 2000 ∧
    ∀ k : Nat,
      (startCall c (DialOutcome.rejected (Thrown.value m)) s).timers.get? k
        = some Timer.resetCall →
      (step (startCall c (DialOutcome.rejected (Thrown.value m)) s)
        (Event.timer k)).callStatus = none ∧
      (step (startCall c (DialOutcome.rejected (Thrown.value m)) s)
        (Event.timer k)).activeCallContact = none ∧
      (step (startCall c (DialOutcome.rejected (Thrown.value m)) s)
        (Event.timer k)).currentPage = "keypad" := by
  refine ⟨?_, ?_, ?_, ?_, rfl, ?_⟩
  · simp [startCall_eq, startCallResume]
  · simp [startCall_eq, startCallResume, startCallBegin, notificationLog, List.filterMap_append]
  · intro m2
    rw [startCall_eq, startCall_eq]
    apply render_stateVariables
    rfl
  · rw [startCall_eq, render_count_resetCall]
    simp [startCallResume, List.count_append, render_count_resetCall, startCallBegin]
  · intro k hk
    exact fire_resetCall_idle _ k hk

/-- A witness of the amended C3: the dial to 1001 fails from the initial
state; the reset timer is the first of the two timers then running. -/
theorem startCall_dial_fails_witness :
    (startCall john (DialOutcome.rejected (Thrown.value (JsValue.str "busy")))
      (initialState false)).timers.get? 0 = some Timer.resetCall ∧
    (step (startCall john (DialOutcome.rejected (Thrown.value (JsValue.str "busy")))
      (initialState false)) (Event.timer 0)).callStatus = none :=
  ⟨by decide,
    ((startCall_dial_fails john (JsValue.str "busy") (initialState false)).2.2.2.2.2 0
      (by decide)).1⟩

/-! ## C4 -/

/-- C4. For every extension `x` (and name), every channel id `ch` returned by
a successful dial and every state, after `startCall` has run to its end
`callStatus` is "Connected", the contact of the session has extension `x`,
and the last call made is `navigate("/calling", ...)` with a route state that
is outgoing, for the same contact, with `channel` and `callId` equal to `ch`. -/
theorem startCall_dial_succeeds (x name ch : String) (s : State) :
    (startCall { extension := x, name := name } (DialOutcome.resolved (some ch)) s).callStatus
      = some "Connected" ∧
    (startCall { extension := x, name := name }
      (DialOutcome.resolved (some ch)) s).activeCallContact.map Contact.extension = some x ∧
    (startCall { extension := x, name := name } (DialOutcome.resolved (some ch)) s).currentPage
      = "calling" ∧
    (startCall { extension := x, name := name } (DialOutcome.resolved (some ch)) s).trace.getLast?
      = some (Effect.navigate "/calling"
          (some (callingRouteState { extension := x, name := name } (some ch)))) ∧
    (callingRouteState { extension := x, name := name } (some ch)).isOutgoing = true ∧
    (callingRouteState { extension := x, name := name } (some ch)).contact.extension = x ∧
    (callingRouteState { extension := x, name := name } (some ch)).channel = some ch ∧
    (callingRouteState { extension := x, name := name } (some ch)).callId = some ch := by
  refine ⟨?_, ?_, ?_, ?_, rfl, rfl, rfl, rfl⟩
  · simp [startCall_eq, startCallResume]
  · simp [startCall_eq, startCallResume, startCallBegin]
  · simp [startCall_eq, startCallResume]
  · simp [startCall_eq, startCallResume, List.getLast?_append]

/-! ## C5 -/

/-- C5 fails. An incoming call that arrives while the page is connected to
1001 becomes the pending offer, and nothing is rejected: the trace of calls
made by the page is the same as before. -/
theorem incoming_while_connected_counterexample :
    connectedJohn.callStatus = some "Connected" ∧
    connectedJohn.incomingCall = none ∧
    (step connectedJohn (Event.incomingCall offer1002)).incomingCall = some offer1002 ∧
    (step connectedJohn (Event.incomingCall offer1002)).incomingCall ≠ none ∧
    (step connectedJohn (Event.incomingCall offer1002)).trace = connectedJohn.trace := by
  decide

/-- C5, amended. For every incoming-call event that arrives while the session
is Connected, the handler surfaces it like any other: the payload becomes the
pending offer (`incomingCall`), the toast announces the caller, nothing is
rejected (no call leaves the page) and `callStatus` and `activeCallContact`
are unchanged. -/
theorem incoming_while_connected (s : State) (d : IncomingCallData)
    (_hs : s.callStatus = some "Connected") :
    (step s (Event.incomingCall d)).incomingCall = some d ∧
    (step s (Event.incomingCall d)).notification
      = some { message := "📞 " ++ callerLabel d ++ " is calling", type := "info" } ∧
    (step s (Event.incomingCall d)).trace = s.trace ∧
    (step s (Event.incomingCall d)).callStatus = s.callStatus ∧
    (step s (Event.incomingCall d)).activeCallContact = s.activeCallContact := by
  simp [step, handle, onIncomingCall, render]

/-- A witness of the amended C5: the call from 1002 while connected to 1001. -/
theorem incoming_while_connected_witness :
    connectedJohn.callStatus = some "Connected" ∧
    (step connectedJohn (Event.incomingCall offer1002)).incomingCall = some offer1002 :=
  ⟨by decide, (incoming_while_connected connectedJohn offer1002 (by decide)).1⟩

/-! ## C6 -/

/-- Statuses pushed through the status callback touch `callStatus` only. -/
theorem foldl_onStatus_fields (l : List String) (s : State) :
    (l.foldl (fun st status => onStatus status st) s).activeCallContact = s.activeCallContact ∧
    (l.foldl (fun st status => onStatus status st) s).incomingCall = s.incomingCall ∧
    (l.foldl (fun st status => onStatus status st) s).trace = s.trace ∧
    (l.foldl (fun st status => onStatus status st) s).currentPage = s.currentPage ∧
    (l.foldl (fun st status => onStatus status st) s).pendingDials = s.pendingDials ∧
    (l.foldl (fun st status => onStatus status st) s).pendingHangups = s.pendingHangups := by
  induction l generalizing s with
  | nil => simp
  | cons a l ih => simpa [onStatus] using ih (onStatus a s)

/-- The last status pushed is the one that stays. -/
theorem foldl_onStatus_callStatus (l : List String) (s : State) :
    (l.foldl (fun st status => onStatus status st) s).callStatus
      = match l.getLast? with
        | some status => some status
        | none => s.callStatus := by
  induction l using List.reverseRecOn with
  | nil => rfl
  | append_singleton l a _ => simp [List.foldl_append, onStatus]

/-- C6 fails. With the call from 1002 pending on the idle page, neither way
of accepting it gives the page a session with 1002: after `onCallAccepted`
the page is still idle, and after the Accept button (whose `onAccept` reports
"Connected") `callStatus` is "Connected" with no contact at all. -/
theorem accept_counterexample :
    (step (initialState false) (Event.incomingCall offer1002)).incomingCall = some offer1002 ∧
    offer1002.from_ = JsValue.str "1002" ∧
    (run (initialState false) [Event.incomingCall offer1002, Event.onCallAccepted]).callStatus
      = none ∧
    (run (initialState false)
      [Event.incomingCall offer1002, Event.onCallAccepted]).activeCallContact = none ∧
    (run (initialState false) [Event.incomingCall offer1002, Event.acceptClick]).callStatus
      = some "Connected" ∧
    (run (initialState false)
      [Event.incomingCall offer1002, Event.acceptClick]).activeCallContact = none ∧
    (run (initialState false)
      [Event.incomingCall offer1002, Event.acceptClick]).activeCallContact.map Contact.extension
        ≠ some "1002" := by
  decide

/-- C6, amended. For every pending offer, accepting it clears the pending
offer and records no session for it: after `onCallAccepted`, `incomingCall`
is null and `callStatus` and `activeCallContact` are what they were; after
the Accept button, when the offer's `onAccept` returns, `incomingCall` is
null, `activeCallContact` is what it was, and `callStatus` is the last
status `onAccept` pushed through the status callback, or what it was when
none was pushed. -/
theorem accept_clears_offer (s : State) (d : IncomingCallData) (hd : s.incomingCall = some d) :
    ((step s Event.onCallAccepted).incomingCall = none ∧
      (step s Event.onCallAccepted).callStatus = s.callStatus ∧
      (step s Event.onCallAccepted).activeCallContact = s.activeCallContact) ∧
    ∀ statuses : List String, d.onAccept = some statuses →
      (step s Event.acceptClick).incomingCall = none ∧
      (step s Event.acceptClick).activeCallContact = s.activeCallContact ∧
      (step s Event.acceptClick).callStatus
        = match statuses.getLast? with
          | some status => some status
          | none => s.callStatus := by
  constructor
  · simp [step, handle, onCallAccepted]
  · intro statuses hst
    simp only [step, handle, acceptClick, hd, hst, render_incomingCall,
      render_activeCallContact, render_callStatus]
    refine ⟨trivial, ?_, ?_⟩
    · exact (foldl_onStatus_fields statuses _).1
    · exact foldl_onStatus_callStatus statuses _

/-- A witness of the amended C6: the call from 1002 accepted with the button. -/
theorem accept_clears_offer_witness :
    (step (initialState false) (Event.incomingCall offer1002)).incomingCall = some offer1002 ∧
    offer1002.onAccept = some ["Connected"] ∧
    (step (step (initialState false) (Event.incomingCall offer1002))
      Event.acceptClick).incomingCall = none :=
  ⟨by decide, by decide,
    ((accept_clears_offer (step (initialState false) (Event.incomingCall offer1002)) offer1002
      (by decide)).2 ["Connected"] (by decide)).1⟩

/-! ## C7 -/

/-- C7 fails. `startCall(john)` dials, `endCall` runs to its end (the session
is idle), then the dial returns a channel id: the page shows "Connected" on
the "calling" page and has added a "call connected" notification. -/
theorem late_dial_ack_counterexample :
    (run (initialState false)
      [Event.startCall john, Event.endCall, Event.hangupSettled 0 HangupOutcome.ack]).callStatus
        = none ∧
    (run (initialState false)
      [Event.startCall john, Event.endCall, Event.hangupSettled 0 HangupOutcome.ack,
        Event.dialSettled 0 (DialOutcome.resolved (some "webrtc-call-42"))]).callStatus
        = some "Connected" ∧
    notificationLog (run (initialState false)
      [Event.startCall john, Event.endCall, Event.hangupSettled 0 HangupOutcome.ack,
        Event.dialSettled 0 (DialOutcome.resolved (some "webrtc-call-42"))])
      = [initiatingNotification john, NotifCall.callEnded "1001" "Unknown duration",
          NotifCall.callConnected "1001"] := by
  decide

/-- C7, amended. For every contact `c`, every state and every outcome of
the hangup with which `endCall` runs to its end (the request returns, or
throws a value whose `message` can be read), in the event sequence
"`startCall(c)` dials; `endCall` runs to its end; the dial then returns with
a channel id", `endCall` leaves the session idle and the late acknowledgment
is then applied: `callStatus` becomes "Connected", `currentPage` becomes
"calling", `activeCallContact` stays null, and one
`callConnected(c.extension)` notification is appended. -/
theorem late_dial_ack_applied (c : Contact) (channel : Option String) (o : HangupOutcome)
    (s : State) (ho : o ≠ HangupOutcome.error Thrown.nullish) :
    ((run s [Event.startCall c, Event.endCall,
        Event.hangupSettled s.pendingHangups.length o]).callStatus = none ∧
      (run s [Event.startCall c, Event.endCall,
        Event.hangupSettled s.pendingHangups.length o]).activeCallContact = none) ∧
    (run s [Event.startCall c, Event.endCall, Event.hangupSettled s.pendingHangups.length o,
      Event.dialSettled s.pendingDials.length (DialOutcome.resolved channel)]).callStatus
        = some "Connected" ∧
    (run s [Event.startCall c, Event.endCall, Event.hangupSettled s.pendingHangups.length o,
      Event.dialSettled s.pendingDials.length (DialOutcome.resolved channel)]).currentPage
        = "calling" ∧
    (run s [Event.startCall c, Event.endCall, Event.hangupSettled s.pendingHangups.length o,
      Event.dialSettled s.pendingDials.length (DialOutcome.resolved channel)]).activeCallContact
        = none ∧
    notificationLog (run s [Event.startCall c, Event.endCall,
      Event.hangupSettled s.pendingHangups.length o,
      Event.dialSettled s.pendingDials.length (DialOutcome.resolved channel)])
      = notificationLog (run s [Event.startCall c, Event.endCall,
          Event.hangupSettled s.pendingHangups.length o])
        ++ [NotifCall.callConnected c.extension] := by
  have hg : endCallGuard (render s.callStatus (startCallBegin c s)) = some c := by
    simp [endCallGuard, startCallBegin, truthy, JsValue.ofNullable, initiating_ne_empty]
  simp only [run, List.foldl, step, handle, endCallBegin, hg]
  cases o with
  | ack =>
    simp [startCallBegin, endCallResume, endCallFinish, startCallResume, notificationLog,
      List.filterMap_append]
  | error e =>
    cases e with
    | nullish => exact absurd rfl ho
    | value m =>
      simp [startCallBegin, endCallResume, endCallFinish, startCallResume, notificationLog,
        List.filterMap_append]

/-- A witness of the amended C7: the call to 1001 ended while it is dialled,
the hangup failing with the message "timeout". -/
theorem late_dial_ack_applied_witness :
    HangupOutcome.error (Thrown.value (JsValue.str "timeout"))
      ≠ HangupOutcome.error Thrown.nullish ∧
    (run (initialState false) [Event.startCall john, Event.endCall,
      Event.hangupSettled (initialState false).pendingHangups.length
        (HangupOutcome.error (Thrown.value (JsValue.str "timeout"))),
      Event.dialSettled (initialState false).pendingDials.length
        (DialOutcome.resolved (some "webrtc-call-42"))]).callStatus = some "Connected" :=
  ⟨by decide,
    (late_dial_ack_applied john (some "webrtc-call-42")
      (HangupOutcome.error (Thrown.value (JsValue.str "timeout"))) (initialState false)
      (by decide)).2.1⟩

/-! ## C8 -/

/-- The dial commands a handler issues. -/
theorem dialLog_handle (e : Event) (s : State) :
    dialLog (handle e s) = dialLog s ++ e.dialled := by
  cases e with
  | startCall c => simp [handle, startCallBegin, dialLog, Event.dialled, List.filterMap_append]
  | dialSettled k o =>
    simp only [handle]
    cases s.pendingDials.get? k with
    | none => simp [Event.dialled]
    | some c =>
      rcases o with ch | e | m <;>
        simp [startCallResume, dialLog, Event.dialled, List.filterMap_append]
  | endCall =>
    simp only [handle, endCallBegin]
    cases endCallGuard s <;>
      simp [endCallFinish, dialLog, Event.dialled, List.filterMap_append]
  | hangupSettled k o =>
    simp only [handle]
    cases s.pendingHangups.get? k with
    | none => simp [Event.dialled]
    | some c =>
      rcases o with _ | e | m <;>
        simp [endCallResume, endCallFinish, dialLog, Event.dialled, List.filterMap_append]
  | incomingCall d => simp [handle, onIncomingCall, dialLog, Event.dialled]
  | status st => simp [handle, onStatus, dialLog, Event.dialled]
  | acceptClick =>
    simp only [handle, acceptClick]
    split
    · simp [Event.dialled]
    · split
      · simp [Event.dialled]
      · simp [dialLog, Event.dialled, (foldl_onStatus_fields _ _).2.2.1, List.filterMap_append]
  | rejectClick =>
    simp only [handle, rejectClick]
    split
    · simp [Event.dialled]
    · split
      · simp [Event.dialled]
      · simp [dialLog, Event.dialled, (foldl_onStatus_fields _ _).2.2.1, List.filterMap_append]
  | onCallAccepted =>
    cases h : s.hasSetIncomingCall <;>
      simp [handle, onCallAccepted, dialLog, Event.dialled, h, List.filterMap_append]
  | onCallRejected =>
    cases h : s.hasSetIncomingCall <;>
      simp [handle, onCallRejected, dialLog, Event.dialled, h, List.filterMap_append]
  | timer k =>
    simp only [handle, fireTimer]
    cases s.timers.get? k with
    | none => simp [Event.dialled]
    | some t => cases t <;> simp [Timer.run, dialLog, Event.dialled]

/-- The dial commands a sequence of events issues. -/
theorem dialLog_run (es : List Event) (s : State) :
    dialLog (run s es) = dialLog s ++ (es.map Event.dialled).flatten := by
  induction es generalizing s with
  | nil => simp [run]
  | cons e es ih =>
    have h : run s (e :: es) = run (step s e) es := rfl
    have h2 : dialLog (step s e) = dialLog s ++ e.dialled := by
      rw [← dialLog_handle e s]
      simp [dialLog, step]
    rw [h, ih, h2]
    simp

/-- One dial for each `startCall` event. -/
theorem length_dialled (es : List Event) :
    (es.map Event.dialled).flatten.length = es.countP Event.isStartCall := by
  induction es with
  | nil => rfl
  | cons e es ih =>
    rw [List.map_cons, List.flatten_cons, List.length_append, ih, List.countP_cons]
    cases e <;> simp [Event.dialled, Event.isStartCall]
    omega

/-- C8 fails. From the initial state, `startCall(john)` followed by
`startCall(jane)` while the first dial is pending and `callStatus` is
non-null: the second start is accepted, two dials are in flight, and when
both return two calls have been reported connected. -/
theorem two_calls_counterexample :
    (run (initialState false) [Event.startCall john]).callStatus
      = some "Initiating call to Extension 1001..." ∧
    (run (initialState false) [Event.startCall john, Event.startCall jane]).pendingDials
      = [john, jane] ∧
    dialLog (run (initialState false) [Event.startCall john, Event.startCall jane])
      = ["1001", "1002"] ∧
    notificationLog (run (initialState false)
      [Event.startCall john, Event.startCall jane,
        Event.dialSettled 0 (DialOutcome.resolved (some "webrtc-call-42")),
        Event.dialSettled 0 (DialOutcome.resolved (some "webrtc-call-43"))])
      = [initiatingNotification john, initiatingNotification jane,
          NotifCall.callConnected "1001", NotifCall.callConnected "1002"] := by
  decide

/-- C8, amended. For every finite sequence of events applied from the initial
state (calls of `startCall` and `endCall`, settled dials and hangups,
incoming offers, accepts, rejects, statuses and timers), every `startCall`
is accepted, whatever `callStatus` is: the dial commands issued are exactly,
in order, the extensions of the `startCall` events of the sequence, and their
number is the number of those events. -/
theorem every_startCall_dials (hasSetIncomingCall : Bool) (es : List Event) :
    dialLog (run (initialState hasSetIncomingCall) es) = (es.map Event.dialled).flatten ∧
    (dialLog (run (initialState hasSetIncomingCall) es)).length
      = es.countP Event.isStartCall := by
  have h : dialLog (run (initialState hasSetIncomingCall) es) = (es.map Event.dialled).flatten := by
    rw [dialLog_run]
    simp [dialLog, initialState]
  exact ⟨h, by rw [h]; exact length_dialled es⟩

/-! ## C9 -/

/-- C9. For every state whose `callStatus` is a non-empty string `st`, the
effect on `callStatus` sets a toast with message `st` whose type is
"success" exactly when `st` is "Connected", "error" exactly when `st` is
"Call failed", and "info" for every other `st`; for a null or empty
`callStatus` the effect produces nothing: it leaves the state as it is. -/
theorem callStatus_effect_toast (s : State) :
    (∀ st : String, s.callStatus = some st → st ≠ "" →
      (callStatusEffect s).notification = some { message := st, type := statusType st } ∧
      statusNotification s.callStatus = some { message := st, type := statusType st } ∧
      (statusType st = "success" ↔ st = "Connected") ∧
      (statusType st = "error" ↔ st = "Call failed") ∧
      (st ≠ "Connected" → st ≠ "Call failed" → statusType st = "info")) ∧
    (s.callStatus = none ∨ s.callStatus = some "" →
      callStatusEffect s = s ∧ statusNotification s.callStatus = none) := by
  constructor
  · intro st hst hne
    refine ⟨?_, ?_, ?_, ?_, ?_⟩
    · simp [callStatusEffect, statusNotification, hst, truthy, hne]
    · simp [statusNotification, hst, truthy, hne]
    · unfold statusType
      constructor
      · intro h
        by_contra hc
        rw [if_neg hc] at h
        split at h <;> exact absurd h (by decide)
      · intro h
        rw [if_pos h]
    · unfold statusType
      constructor
      · intro h
        split at h
        · exact absurd h (by decide)
        · by_contra hc
          rw [if_neg hc] at h
          exact absurd h (by decide)
      · intro h
        rw [h]
        decide
    · intro h1 h2
      simp [statusType, h1, h2]
  · intro h
    rcases h with h | h <;> simp [callStatusEffect, statusNotification, h, truthy]

/-- A witness of C9: the effect on the status "Ringing", and on no status. -/
theorem callStatus_effect_toast_witness :
    (onStatus "Ringing" connectedJohn).callStatus = some "Ringing" ∧
    (callStatusEffect (onStatus "Ringing" connectedJohn)).notification
      = some { message := "Ringing", type := "info" } ∧
    callStatusEffect (initialState false) = initialState false :=
  ⟨by decide,
    ((callStatus_effect_toast (onStatus "Ringing" connectedJohn)).1 "Ringing"
      (by decide) (by decide)).1,
    ((callStatus_effect_toast (initialState false)).2 (Or.inl (by decide))).1⟩

/-! ## C10 -/

/-- C10 fails. The status "Ringing" is neither "Connected" nor "Call failed",
and handling it changes `callStatus`: pushed to the page connected to 1001
the session is no longer "Connected", and pushed to the idle page
`callStatus` is no longer null. An empty status raises no toast at all: the
toast stays the one of "Connected". -/
theorem unknown_status_counterexample :
    connectedJohn.callStatus = some "Connected" ∧
    (step connectedJohn (Event.status "Ringing")).callStatus = some "Ringing" ∧
    (step connectedJohn (Event.status "Ringing")).callStatus ≠ connectedJohn.callStatus ∧
    (initialState false).callStatus = none ∧
    (step (initialState false) (Event.status "Ringing")).callStatus = some "Ringing" ∧
    (step connectedJohn (Event.status "")).callStatus = some "" ∧
    (step connectedJohn (Event.status "")).notification
      = some { message := "Connected", type := "success" } := by
  decide

/-- C10, amended. For every non-empty status string `st` pushed by the
signaling backend that is neither "Connected" nor "Call failed" and is not
the current `callStatus`, handling `st` sets `callStatus` to `st` and
surfaces an informational toast with message `st`; `activeCallContact`,
`currentPage`, the pending offer and the trace of calls made by the page
(the notification log among them) are the same after the status callback and
its effect as before. -/
theorem unknown_status_info (st : String) (s : State)
    (hne : st ≠ "") (h1 : st ≠ "Connected") (h2 : st ≠ "Call failed")
    (hcur : s.callStatus ≠ some st) :
    (step s (Event.status st)).callStatus = some st ∧
    (step s (Event.status st)).notification = some { message := st, type := "info" } ∧
    (step s (Event.status st)).activeCallContact = s.activeCallContact ∧
    (step s (Event.status st)).currentPage = s.currentPage ∧
    (step s (Event.status st)).incomingCall = s.incomingCall ∧
    (step s (Event.status st)).trace = s.trace := by
  refine ⟨?_, ?_, ?_, ?_, ?_, ?_⟩
  · simp [step, handle, onStatus]
  · have hcur2 : ¬ (some st = s.callStatus) := fun h => hcur h.symm
    simp [step, handle, onStatus, render, hcur2, callStatusEffect, effectCleanup,
      statusNotification, truthy, hne, statusType, h1, h2]
  · simp [step, handle, onStatus]
  · simp [step, handle, onStatus]
  · simp [step, handle, onStatus]
  · simp [step, handle, onStatus]

/-- A witness of the amended C10: "Ringing" pushed to the page connected to
1001. -/
theorem unknown_status_info_witness :
    (step connectedJohn (Event.status "Ringing")).notification
      = some { message := "Ringing", type := "info" } :=
  (unknown_status_info "Ringing" connectedJohn (by decide) (by decide) (by decide)
    (by decide)).2.1

/-! ## C11 -/

/-- The state from which `endCall` resumes when nothing happened during the
`await`. -/
theorem endCall_eq (c : Contact) (o : HangupOutcome) (s : State)
    (hg : endCallGuard s = some c) :
    endCall o s
      = render s.callStatus
          (endCallResume c o
            { render s.callStatus
                { s with
                  trace := s.trace ++ [Effect.hangup ("PJSIP/" ++ c.extension)]
                  pendingHangups := s.pendingHangups ++ [c] } with
              pendingHangups := s.pendingHangups }) := by
  simp [endCall, hg, run, step, handle, endCallBegin]

/-- The guard of `endCall` on a state with an active session. -/
theorem endCallGuard_active (s : State) (c : Contact) (hc : s.activeCallContact = some c)
    (hs : truthy (JsValue.ofNullable s.callStatus) = true) : endCallGuard s = some c := by
  simp [endCallGuard, hc, hs]

/-- When the hangup request returns, or throws a value whose `message` can be
read, `endCall` on a state with an active session appends exactly one entry
to the notification log: `callEnded(extension, 'Unknown duration')` in the
first case, the error notification titled 'End Call Failed' in the second. -/
theorem endCall_notification_of_readable (s : State) (c : Contact)
    (hc : s.activeCallContact = some c)
    (hs : truthy (JsValue.ofNullable s.callStatus) = true) :
    notificationLog (endCall HangupOutcome.ack s)
      = notificationLog s ++ [NotifCall.callEnded c.extension "Unknown duration"] ∧
    ∀ m : JsValue, notificationLog (endCall (HangupOutcome.error (Thrown.value m)) s)
      = notificationLog s ++ [NotifCall.addNotification "error" "End Call Failed"
          ("Failed to end call with " ++ c.extension ++ ": " ++ tmpl m)] := by
  have hg := endCallGuard_active s c hc hs
  constructor
  · simp [endCall_eq c _ s hg, endCallResume, endCallFinish, notificationLog,
      List.filterMap_append]
  · intro m
    simp [endCall_eq c _ s hg, endCallResume, endCallFinish, notificationLog,
      List.filterMap_append]

/-- C11, the code at the failing input. The page is connected to 1001 (an
active session) and `hangupCall` rejects with `undefined` (or `null`):
`callEnded` is skipped, and the argument of `addNotification` throws when it
reads `error.message`, before the call is made. After `endCall` the
notification log is what it was: neither notification was appended. -/
theorem endCall_no_notification_on_nullish_error :
    connectedJohn.activeCallContact = some john ∧
    connectedJohn.callStatus = some "Connected" ∧
    notificationLog (endCall (HangupOutcome.error Thrown.nullish) connectedJohn)
      = notificationLog connectedJohn ∧
    (endCall (HangupOutcome.error Thrown.nullish) connectedJohn).trace
      = connectedJohn.trace ++ [Effect.hangup "PJSIP/1001"] := by
  decide

/-! ## C12 -/

/-- C12 fails. The dial to 1001 returned the channel id "webrtc-call-42";
the hangup command `endCall` then sends is for "PJSIP/1001". -/
theorem hangup_channel_counterexample :
    connectedJohn
      = startCall john (DialOutcome.resolved (some "webrtc-call-42")) (initialState false) ∧
    hangupLog (step connectedJohn Event.endCall) = ["PJSIP/1001"] ∧
    hangupLog (step connectedJohn Event.endCall) ≠ ["webrtc-call-42"] := by
  decide

/-- C12, amended. For every contact `c`, every state and every channel id
`ch` returned by the dial of `startCall(c)`, the hangup command `endCall`
sends for that session has the argument "PJSIP/" followed by `c.extension`,
the extension of the session's contact, whatever `ch` is. -/
theorem hangup_targets_extension (c : Contact) (ch : Option String) (s : State) :
    (step (startCall c (DialOutcome.resolved ch) s) Event.endCall).trace
      = (startCall c (DialOutcome.resolved ch) s).trace
        ++ [Effect.hangup ("PJSIP/" ++ c.extension)] ∧
    hangupLog (step (startCall c (DialOutcome.resolved ch) s) Event.endCall)
      = hangupLog (startCall c (DialOutcome.resolved ch) s) ++ ["PJSIP/" ++ c.extension] := by
  have hg : endCallGuard (startCall c (DialOutcome.resolved ch) s) = some c := by
    apply endCallGuard_active
    · simp [startCall_eq, startCallResume, startCallBegin]
    · simp [startCall_eq, startCallResume, truthy, JsValue.ofNullable]
  simp [step, handle, endCallBegin, hg, hangupLog, List.filterMap_append]

/-! ## C13 -/

/-- C13. For every contact `c` and every state, the idle one among them, when
`startCall(c)` reaches its `await` the session is recorded as dialling `c`
(`activeCallContact` is `c`, `callStatus` is "Initiating call to
<c.name>..."), and the calls it has made are, in this order, exactly one
'info' notification titled 'Initiating Call' and then exactly one dial
command for `c.extension`. The notification stands before the dial in the
trace whatever the dial settles to. -/
theorem startCall_notifies_then_dials (c : Contact) (s : State) :
    (step s (Event.startCall c)).activeCallContact = some c ∧
    (step s (Event.startCall c)).callStatus = some ("Initiating call to " ++ c.name ++ "...") ∧
    (step s (Event.startCall c)).trace
      = s.trace ++ [Effect.notify (NotifCall.addNotification "info" "Initiating Call"
            ("Calling " ++ tmpl (jsOr (JsValue.str c.name) (JsValue.str c.extension)) ++ "...")),
          Effect.dial c.extension] ∧
    notificationLog (step s (Event.startCall c))
      = notificationLog s ++ [NotifCall.addNotification "info" "Initiating Call"
          ("Calling " ++ tmpl (jsOr (JsValue.str c.name) (JsValue.str c.extension)) ++ "...")] ∧
    dialLog (step s (Event.startCall c)) = dialLog s ++ [c.extension] ∧
    ∀ o : DialOutcome, ∃ rest : List Effect,
      (startCall c o s).trace
        = s.trace ++ [Effect.notify (NotifCall.addNotification "info" "Initiating Call"
              ("Calling " ++ tmpl (jsOr (JsValue.str c.name) (JsValue.str c.extension)) ++ "...")),
            Effect.dial c.extension] ++ rest := by
  refine ⟨?_, ?_, ?_, ?_, ?_, ?_⟩
  · simp [step, handle, startCallBegin]
  · simp [step, handle, startCallBegin]
  · simp [step, handle, startCallBegin, initiatingNotification]
  · simp [step, handle, startCallBegin, initiatingNotification, notificationLog,
      List.filterMap_append]
  · simp [step, handle, startCallBegin, dialLog, List.filterMap_append]
  · intro o
    cases o with
    | resolved ch =>
      exact ⟨[Effect.notify (NotifCall.callConnected c.extension),
        Effect.navigate "/calling" (some (callingRouteState c ch))],
        by simp [startCall_eq, startCallResume, startCallBegin, initiatingNotification]⟩
    | rejected e =>
      cases e with
      | nullish =>
        exact ⟨[],
          by simp [startCall_eq, startCallResume, startCallBegin, initiatingNotification]⟩
      | value m =>
        exact ⟨[Effect.notify (NotifCall.callFailed c.extension m)],
          by simp [startCall_eq, startCallResume, startCallBegin, initiatingNotification]⟩

/-! ## C14 -/

/-- The operator `||` gives its left operand when that is truthy. -/
theorem jsOr_of_truthy (a b : JsValue) (h : truthy a = true) : jsOr a b = a := by
  simp [jsOr, h]

/-- The operator `||` gives its right operand when the left one is falsy. -/
theorem jsOr_of_falsy (a b : JsValue) (h : truthy a = false) : jsOr a b = b := by
  simp [jsOr, h]

/-- C14. For every raw incoming-call payload `p`, the offer passed to the
incoming-call view has `priority` equal to `p.priority` when that is present
and non-empty and "normal" otherwise, and `transport` equal to `p.transport`
when that is present and non-empty and "transport-ws" otherwise; neither
field is ever empty or undefined. -/
theorem callData_defaults (p : IncomingCallData) :
    (callData p).priority = (if truthy p.priority then p.priority else JsValue.str "normal") ∧
    (callData p).transport
      = (if truthy p.transport then p.transport else JsValue.str "transport-ws") ∧
    truthy (callData p).priority = true ∧
    truthy (callData p).transport = true := by
  refine ⟨rfl, rfl, ?_, ?_⟩
  · cases h : truthy p.priority
    · simp [callData, jsOr_of_falsy _ _ h, truthy]
    · simp [callData, jsOr_of_truthy _ _ h, h]
  · cases h : truthy p.transport
    · simp [callData, jsOr_of_falsy _ _ h, truthy]
    · simp [callData, jsOr_of_truthy _ _ h, h]

/-! ## C15 -/

/-- C15. For every raw incoming-call payload `p`, the caller of the offer is
`p.caller` when that is non-empty and `p.from` otherwise, its channel is
`p.channel` when that is non-empty and `p.callId` otherwise, and either is
empty or undefined only if both of its aliases are. -/
theorem callData_aliases (p : IncomingCallData) :
    (callData p).from_ = (if truthy p.caller then p.caller else p.from_) ∧
    (callData p).channel = (if truthy p.channel then p.channel else p.callId) ∧
    (truthy (callData p).from_ = false →
      truthy p.caller = false ∧ truthy p.from_ = false) ∧
    (truthy (callData p).channel = false →
      truthy p.channel = false ∧ truthy p.callId = false) := by
  refine ⟨rfl, rfl, ?_, ?_⟩
  · intro h
    cases hc : truthy p.caller
    · exact ⟨rfl, by simpa [callData, jsOr_of_falsy _ _ hc] using h⟩
    · simp [callData, jsOr_of_truthy _ _ hc, hc] at h
  · intro h
    cases hc : truthy p.channel
    · exact ⟨rfl, by simpa [callData, jsOr_of_falsy _ _ hc] using h⟩
    · simp [callData, jsOr_of_truthy _ _ hc, hc] at h

/-- A witness of C15: a payload with no caller at all. -/
theorem callData_aliases_witness :
    truthy (callData { offer1002 with from_ := JsValue.undefined }).from_ = false ∧
    truthy ({ offer1002 with from_ := JsValue.undefined } : IncomingCallData).caller = false ∧
    truthy ({ offer1002 with from_ := JsValue.undefined } : IncomingCallData).from_ = false :=
  ⟨by decide,
    (callData_aliases { offer1002 with from_ := JsValue.undefined }).2.2.1 (by decide)⟩

/-! ## C16 -/

/-- The label of the caller, case by case: a display name when there is one,
`fromUsername` first, and otherwise "Extension " followed by the field
`from` of the payload. -/
theorem callerLabel_cases (p : IncomingCallData) :
    (truthy p.fromUsername = true → callerLabel p = tmpl p.fromUsername) ∧
    (truthy p.fromUsername = false → truthy p.caller_username = true →
      callerLabel p = tmpl p.caller_username) ∧
    (truthy p.fromUsername = false → truthy p.caller_username = false →
      callerLabel p = "Extension " ++ tmpl p.from_) := by
  refine ⟨?_, ?_, ?_⟩
  · intro h
    simp [callerLabel, jsOr_of_truthy _ _ h]
  · intro h1 h2
    simp [callerLabel, jsOr_of_falsy _ _ h1, jsOr_of_truthy _ _ h2]
  · intro h1 h2
    simp [callerLabel, jsOr_of_falsy _ _ h1, jsOr_of_falsy _ _ h2, tmpl]

/-- C16, the code at the failing input. A payload without display name that
names its caller in `caller` only: the offer handed to the incoming-call
view has caller "1002", and the label of the toast and of the modal is
"Extension undefined". With a `from` that differs from `caller` the label
follows `from` ("Extension 2001", or "Extension null" for a `from` that is
`null`), the offer `caller`. -/
theorem callerLabel_ignores_caller :
    truthy callerOnlyOffer.fromUsername = false ∧
    truthy callerOnlyOffer.caller_username = false ∧
    (callData callerOnlyOffer).from_ = JsValue.str "1002" ∧
    callerLabel callerOnlyOffer = "Extension undefined" ∧
    (step (initialState false) (Event.incomingCall callerOnlyOffer)).notification
      = some { message := "📞 Extension undefined is calling", type := "info" } ∧
    (callData { callerOnlyOffer with from_ := JsValue.str "2001" }).from_
      = JsValue.str "1002" ∧
    callerLabel { callerOnlyOffer with from_ := JsValue.str "2001" } = "Extension 2001" ∧
    callerLabel { callerOnlyOffer with from_ := JsValue.null } = "Extension null" := by
  decide

/-! ## C17 -/

/-- C17 fails. With the call from 1002 pending, the handler `onCallRejected`
clears the pending offer and sends nothing: the trace of calls made by the
page is what it was, or has the one call of the prop `setIncomingCall` when
that prop is given, and the offer's `onReject` is not among them. -/
theorem reject_counterexample :
    (step (initialState false) (Event.incomingCall offer1002)).incomingCall = some offer1002 ∧
    (run (initialState false)
      [Event.incomingCall offer1002, Event.onCallRejected]).incomingCall = none ∧
    (run (initialState false) [Event.incomingCall offer1002, Event.onCallRejected]).trace = [] ∧
    (run (initialState true) [Event.incomingCall offer1002, Event.onCallRejected]).trace
      = [Effect.setIncomingCallNull] ∧
    Effect.onReject ∉
      (run (initialState true) [Event.incomingCall offer1002, Event.onCallRejected]).trace := by
  decide

/-- C17, amended. For every pending offer: the handler `onCallRejected`
clears the pending offer, leaves `callStatus` and `activeCallContact`
unchanged and sends no reject signal itself (its only call is the prop
`setIncomingCall`, when given); the modal's Reject button calls the offer's
`onReject`, which is the reject signal, and when that returns the pending
offer is cleared, `activeCallContact` is unchanged, and `callStatus` is the
last status `onReject` pushed through the status callback, or unchanged when
it pushed none. -/
theorem reject_clears_offer (s : State) (d : IncomingCallData) (hd : s.incomingCall = some d) :
    ((step s Event.onCallRejected).incomingCall = none ∧
      (step s Event.onCallRejected).callStatus = s.callStatus ∧
      (step s Event.onCallRejected).activeCallContact = s.activeCallContact ∧
      (step s Event.onCallRejected).trace
        = s.trace ++ (if s.hasSetIncomingCall then [Effect.setIncomingCallNull] else [])) ∧
    ∀ statuses : List String, d.onReject = some statuses →
      (step s Event.rejectClick).incomingCall = none ∧
      (step s Event.rejectClick).trace = s.trace ++ [Effect.onReject] ∧
      (step s Event.rejectClick).activeCallContact = s.activeCallContact ∧
      (step s Event.rejectClick).callStatus
        = match statuses.getLast? with
          | some status => some status
          | none => s.callStatus := by
  constructor
  · cases h : s.hasSetIncomingCall <;> simp [step, handle, onCallRejected, h]
  · intro statuses hst
    simp only [step, handle, rejectClick, hd, hst, render_incomingCall, render_trace,
      render_activeCallContact, render_callStatus]
    refine ⟨trivial, ?_, ?_, ?_⟩
    · exact (foldl_onStatus_fields statuses _).2.2.1
    · exact (foldl_onStatus_fields statuses _).1
    · exact foldl_onStatus_callStatus statuses _

/-- A witness of the amended C17: the call from 1002 rejected with the button. -/
theorem reject_clears_offer_witness :
    (step (initialState false) (Event.incomingCall offer1002)).incomingCall = some offer1002 ∧
    offer1002.onReject = some [] ∧
    (step (step (initialState false) (Event.incomingCall offer1002))
      Event.rejectClick).incomingCall = none :=
  ⟨by decide, by decide,
    ((reject_clears_offer (step (initialState false) (Event.incomingCall offer1002)) offer1002
      (by decide)).2 [] (by decide)).1⟩

/-! ## C18 -/

/-- A `startCall` whose dial fails with an error whose `message` can be read
starts one reset timer. -/
theorem startCall_rejected_count (c : Contact) (m : JsValue) (s : State) :
    (startCall c (DialOutcome.rejected (Thrown.value m)) s).timers.count Timer.resetCall
      = s.timers.count Timer.resetCall + 1 := by
  rw [startCall_eq, render_count_resetCall]
  simp [startCallResume, List.count_append, render_count_resetCall, startCallBegin]

/-- A `startCall` whose dial succeeds starts and stops no reset timer. -/
theorem startCall_resolved_count (c : Contact) (ch : Option String) (s : State) :
    (startCall c (DialOutcome.resolved ch) s).timers.count Timer.resetCall
      = s.timers.count Timer.resetCall := by
  rw [startCall_eq, render_count_resetCall]
  simp [startCallResume, render_count_resetCall, startCallBegin]

/-- C18 fails. The dial to 1001 fails, a call to 1002 is placed and
connects, and the reset timer of the first call then fires: the session with
1002 is reset to idle. -/
theorem stale_reset_counterexample :
    failedJohn = startCall john (DialOutcome.rejected (Thrown.value (JsValue.str "busy")))
      (initialState false) ∧
    (startCall jane (DialOutcome.resolved (some "webrtc-call-43")) failedJohn).callStatus
      = some "Connected" ∧
    (startCall jane (DialOutcome.resolved (some "webrtc-call-43")) failedJohn).activeCallContact
      = some jane ∧
    (startCall jane (DialOutcome.resolved (some "webrtc-call-43")) failedJohn).timers.get? 0
      = some Timer.resetCall ∧
    (step (startCall jane (DialOutcome.resolved (some "webrtc-call-43")) failedJohn)
      (Event.timer 0)).callStatus = none ∧
    (step (startCall jane (DialOutcome.resolved (some "webrtc-call-43")) failedJohn)
      (Event.timer 0)).activeCallContact = none ∧
    (step (startCall jane (DialOutcome.resolved (some "webrtc-call-43")) failedJohn)
      (Event.timer 0)).currentPage = "keypad" := by
  decide

/-- C18, amended. The reset started by a failed dial is unconditional: for
every pair of contacts `c1`, `c2`, in the event sequence "`startCall(c1)`
fails, with an error whose `message` can be read, so that the timer is
started; `startCall(c2)` is issued and its dial succeeds before the 2000 ms
timer fires; the timer of the first call fires", the session of `c2` is
Connected while the timer is still running, and when the timer fires it is
reset to idle (`callStatus` null, `activeCallContact` null, `currentPage`
"keypad"). -/
theorem stale_reset_applied (c1 c2 : Contact) (m : JsValue) (ch : Option String)
    (s : State) :
    (startCall c2 (DialOutcome.resolved ch)
      (startCall c1 (DialOutcome.rejected (Thrown.value m)) s)).callStatus = some "Connected" ∧
    (startCall c2 (DialOutcome.resolved ch)
      (startCall c1 (DialOutcome.rejected (Thrown.value m)) s)).activeCallContact = some c2 ∧
    (startCall c2 (DialOutcome.resolved ch)
      (startCall c1 (DialOutcome.rejected (Thrown.value m)) s)).timers.count Timer.resetCall
        = s.timers.count Timer.resetCall + 1 ∧
    ∀ k : Nat,
      (startCall c2 (DialOutcome.resolved ch)
        (startCall c1 (DialOutcome.rejected (Thrown.value m)) s)).timers.get? k
          = some Timer.resetCall →
      (step (startCall c2 (DialOutcome.resolved ch)
        (startCall c1 (DialOutcome.rejected (Thrown.value m)) s))
        (Event.timer k)).callStatus = none ∧
      (step (startCall c2 (DialOutcome.resolved ch)
        (startCall c1 (DialOutcome.rejected (Thrown.value m)) s))
        (Event.timer k)).activeCallContact = none ∧
      (step (startCall c2 (DialOutcome.resolved ch)
        (startCall c1 (DialOutcome.rejected (Thrown.value m)) s))
        (Event.timer k)).currentPage = "keypad" := by
  refine ⟨?_, ?_, ?_, ?_⟩
  · simp [startCall_eq c2, startCallResume]
  · simp [startCall_eq c2, startCallResume, startCallBegin]
  · rw [startCall_resolved_count, startCall_rejected_count]
  · intro k hk
    exact fire_resetCall_idle _ k hk

/-- A witness of the amended C18: the calls to 1001 and 1002 from the initial
state. -/
theorem stale_reset_applied_witness :
    (startCall jane (DialOutcome.resolved (some "webrtc-call-43")) failedJohn).timers.get? 0
      = some Timer.resetCall ∧
    (step (startCall jane (DialOutcome.resolved (some "webrtc-call-43")) failedJohn)
      (Event.timer 0)).callStatus = none :=
  ⟨by decide,
    ((stale_reset_applied john jane (JsValue.str "busy") (some "webrtc-call-43")
      (initialState false)).2.2.2 0 (by decide)).1⟩

end Dashboard
